import Mathlib

/-!
Verification of the session registry and peer negotiation subsystem of the
neko server (internal/session/manager.go and internal/webrtc/peer.go).

Go maps are embedded as association lists with first-match lookup; map
assignment replaces the first binding of the key and otherwise appends, and
map deletion removes every binding of the key.  Registry operations return
the result value together with the successor state and the list of events
emitted on the internal event bus, so that failure cases can be stated as
exact no-ops.
-/

namespace Neko

/-- First-match lookup in an association list, the shallow embedding of a
Go map read m[k]. -/
def mapLookup {α β : Type} [DecidableEq α] (l : List (α × β)) (k : α) : Option β :=
  match l with
  | [] => none
  | (k1, v1) :: rest => if k1 = k then some v1 else mapLookup rest k

/-- Go map assignment m[k] = v: replace the first binding of k, or append a
fresh binding when k is absent. -/
def mapInsert {α β : Type} [DecidableEq α] (l : List (α × β)) (k : α) (v : β) :
    List (α × β) :=
  match l with
  | [] => [(k, v)]
  | (k1, v1) :: rest =>
    if k1 = k then (k, v) :: rest else (k1, v1) :: mapInsert rest k v

/-- Go map deletion delete(m, k): remove every binding of k. -/
def mapErase {α β : Type} [DecidableEq α] (l : List (α × β)) (k : α) :
    List (α × β) :=
  match l with
  | [] => []
  | (k1, v1) :: rest =>
    if k1 = k then mapErase rest k else (k1, v1) :: mapErase rest k

theorem mapLookup_insert_self {α β : Type} [DecidableEq α]
    (l : List (α × β)) (k : α) (v : β) : mapLookup (mapInsert l k v) k = some v := by
  induction l with
  | nil => simp [mapInsert, mapLookup]
  | cons hd tl ih =>
    obtain ⟨k1, v1⟩ := hd
    by_cases h : k1 = k
    · simp [mapInsert, h, mapLookup]
    · simp [mapInsert, h, mapLookup, ih]

theorem mapLookup_insert_ne {α β : Type} [DecidableEq α]
    (l : List (α × β)) (k k2 : α) (v : β) (h : k ≠ k2) :
    mapLookup (mapInsert l k v) k2 = mapLookup l k2 := by
  induction l with
  | nil => simp [mapInsert, mapLookup, h]
  | cons hd tl ih =>
    obtain ⟨k1, v1⟩ := hd
    by_cases h1 : k1 = k
    · subst h1
      simp [mapInsert, mapLookup, h]
    · simp [mapInsert, h1, mapLookup, ih]

theorem mapLookup_erase_self {α β : Type} [DecidableEq α]
    (l : List (α × β)) (k : α) : mapLookup (mapErase l k) k = none := by
  induction l with
  | nil => simp [mapErase, mapLookup]
  | cons hd tl ih =>
    obtain ⟨k1, v1⟩ := hd
    by_cases h : k1 = k
    · simp [mapErase, h, ih]
    · simp [mapErase, h, mapLookup, ih]

theorem mapLookup_erase_ne {α β : Type} [DecidableEq α]
    (l : List (α × β)) (k k2 : α) (h : k ≠ k2) :
    mapLookup (mapErase l k) k2 = mapLookup l k2 := by
  induction l with
  | nil => simp [mapErase, mapLookup]
  | cons hd tl ih =>
    obtain ⟨k1, v1⟩ := hd
    by_cases h1 : k1 = k
    · subst h1
      simp [mapErase, mapLookup, h, ih]
    · simp [mapErase, h1, mapLookup, ih]

/-- Entries surviving a deletion are exactly the entries with a different
key. -/
theorem mem_mapErase {α β : Type} [DecidableEq α]
    (l : List (α × β)) (k : α) (p : α × β) :
    p ∈ mapErase l k ↔ p ∈ l ∧ p.1 ≠ k := by
  induction l with
  | nil => simp [mapErase]
  | cons hd tl ih =>
    obtain ⟨k1, v1⟩ := hd
    by_cases h : k1 = k
    · subst h
      simp [mapErase, ih]
      intro hp hpe
      exact absurd (by rw [hpe]) hp
    · simp [mapErase, h, ih]
      constructor
      · rintro (hp | hp)
        · subst hp
          simp [h]
        · exact ⟨Or.inr hp.1, hp.2⟩
      · rintro ⟨hp | hp, hne⟩
        · exact Or.inl hp
        · exact Or.inr ⟨hp, hne⟩

/-- Inserting a fresh key appends the binding: the entries are the old ones
plus the new binding. -/
theorem mem_mapInsert_fresh {α β : Type} [DecidableEq α]
    (l : List (α × β)) (k : α) (v : β) (p : α × β)
    (hfresh : mapLookup l k = none) :
    p ∈ mapInsert l k v ↔ p ∈ l ∨ p = (k, v) := by
  induction l with
  | nil => simp [mapInsert]
  | cons hd tl ih =>
    obtain ⟨k1, v1⟩ := hd
    by_cases h : k1 = k
    · simp [mapLookup, h] at hfresh
    · simp [mapLookup, h] at hfresh
      simp [mapInsert, h, ih hfresh]
      tauto

/-- A key that looks up to none has no binding among the entries. -/
theorem not_mem_of_mapLookup_none {α β : Type} [DecidableEq α]
    (l : List (α × β)) (k : α) (v : β)
    (hnone : mapLookup l k = none) : (k, v) ∉ l := by
  induction l with
  | nil => simp
  | cons hd tl ih =>
    obtain ⟨k1, v1⟩ := hd
    by_cases h : k1 = k
    · simp [mapLookup, h] at hnone
    · simp [mapLookup, h] at hnone
      simp [ih hnone]
      exact fun hc => absurd hc.symm h

/-- A successful lookup is a binding among the entries. -/
theorem mem_of_mapLookup_some {α β : Type} [DecidableEq α]
    (l : List (α × β)) (k : α) (v : β)
    (hsome : mapLookup l k = some v) : (k, v) ∈ l := by
  induction l with
  | nil => simp [mapLookup] at hsome
  | cons hd tl ih =>
    obtain ⟨k1, v1⟩ := hd
    by_cases h : k1 = k
    · subst h
      simp [mapLookup] at hsome
      simp [hsome]
    · simp [mapLookup, h] at hsome
      simp [ih hsome]

/-- Capability flags of a participant, types.MemberProfile (fields as used by
manager.go and spec section 3: IsAdmin, CanLogin, CanConnect, CanWatch,
CanHost, CanAccessClipboard, CanSeeInactiveCursors). -/
structure MemberProfile where
  name : String
  isAdmin : Bool
  canLogin : Bool
  canConnect : Bool
  canWatch : Bool
  canHost : Bool
  canAccessClipboard : Bool
  canSeeInactiveCursors : Bool
deriving Repr, DecidableEq

/-- A cursor event, types.Cursor: a pointer-position sample.  Its payload is
opaque to the registry; a position pair suffices for the embedding. -/
structure Cursor where
  x : Int
  y : Int
deriving Repr, DecidableEq

/-- A registered session, SessionCtx: identity, issued token, profile, and
the connection state that session.State() derives from the transport and
media handles (IsConnected, IsWatching). -/
structure SessionCtx where
  id : String
  token : String
  profile : MemberProfile
  isConnected : Bool
  isWatching : Bool
deriving Repr, DecidableEq

/-- Events emitted on the registry event bus (emmiter.Emit calls). -/
inductive SessionEvent where
  | created (s : SessionCtx)
  | deleted (s : SessionCtx)
  | profileChanged (s : SessionCtx)
  | hostChanged (h : Option SessionCtx)
deriving Repr, DecidableEq

/-- Errors returned by registry mutations: types.ErrSessionAlreadyExists,
types.ErrSessionNotFound, and the ad-hoc token-collision error of Create. -/
inductive SessionError where
  | sessionAlreadyExists
  | sessionNotFound
  | sessionTokenAlreadyExists
deriving Repr, DecidableEq

/-- The registry state, SessionManagerCtx: token map (token to id), session
map (id to session), single host slot, cursor ledger keyed by session, and
the optional distinguished API session. -/
structure SessionManagerCtx where
  tokens : List (String × String)
  sessions : List (String × SessionCtx)
  host : Option SessionCtx
  cursors : List (SessionCtx × List Cursor)
  apiSession : Option SessionCtx
deriving Repr, DecidableEq

/-- The profile the constructor gives the API session (manager.go New,
lines 33 to 41); CanSeeInactiveCursors is left at the Go zero value. -/
def apiProfile : MemberProfile :=
  { name := "API Session"
    isAdmin := true
    canLogin := true
    canConnect := false
    canWatch := true
    canHost := true
    canAccessClipboard := true
    canSeeInactiveCursors := false }

/-- session.New: fresh empty maps; when the configured API token is
non-empty, a distinguished API session is provisioned outside the maps. -/
def New (apiToken : String) : SessionManagerCtx :=
  { tokens := []
    sessions := []
    host := none
    cursors := []
    apiSession :=
      if apiToken ≠ "" then
        some { id := "API", token := apiToken, profile := apiProfile,
               isConnected := false, isWatching := false }
      else none }

/-- SessionManagerCtx.Create.  The freshly generated random token
(utils.NewUID 64) is passed as an argument, modelling the nondeterministic
generator.  Returns the result, the successor state, and the events
emitted; on failure the state is returned unchanged with no events. -/
def Create (m : SessionManagerCtx) (id : String) (profile : MemberProfile)
    (token : String) :
    Except SessionError (SessionCtx × String) × SessionManagerCtx × List SessionEvent :=
  if (mapLookup m.sessions id).isSome then
    (.error .sessionAlreadyExists, m, [])
  else if (mapLookup m.tokens token).isSome then
    (.error .sessionTokenAlreadyExists, m, [])
  else
    let session : SessionCtx :=
      { id := id, token := token, profile := profile,
        isConnected := false, isWatching := false }
    (.ok (session, token),
     { m with tokens := mapInsert m.tokens token id,
              sessions := mapInsert m.sessions id session },
     [.created session])

/-- SessionManagerCtx.Update: replace the profile wholesale; NotFound on an
unknown id leaves the state unchanged with no events. -/
def Update (m : SessionManagerCtx) (id : String) (profile : MemberProfile) :
    Except SessionError Unit × SessionManagerCtx × List SessionEvent :=
  match mapLookup m.sessions id with
  | none => (.error .sessionNotFound, m, [])
  | some session =>
    let session2 := { session with profile := profile }
    (.ok (),
     { m with sessions := mapInsert m.sessions id session2 },
     [.profileChanged session2])

/-- SessionManagerCtx.Delete: remove the session entry and its token entry
together; NotFound on an unknown id leaves the state unchanged with no
events.  The teardown of the transport and media peers happens outside the
registry state and is not part of the registry transition. -/
def Delete (m : SessionManagerCtx) (id : String) :
    Except SessionError Unit × SessionManagerCtx × List SessionEvent :=
  match mapLookup m.sessions id with
  | none => (.error .sessionNotFound, m, [])
  | some session =>
    (.ok (),
     { m with tokens := mapErase m.tokens session.token,
              sessions := mapErase m.sessions id },
     [.deleted session])

/-- SessionManagerCtx.Get: non-failing lookup in the session map. -/
def Get (m : SessionManagerCtx) (id : String) : Option SessionCtx :=
  mapLookup m.sessions id

/-- SessionManagerCtx.GetByToken: consult the token map first and resolve
through Get; otherwise fall back to the API session when one is configured
and its token matches. -/
def GetByToken (m : SessionManagerCtx) (token : String) : Option SessionCtx :=
  match mapLookup m.tokens token with
  | some id => Get m id
  | none =>
    match m.apiSession with
    | some api => if api.token = token then some api else none
    | none => none

/-- SessionManagerCtx.List: snapshot of all sessions in the session map. -/
def ListSessions (m : SessionManagerCtx) : List SessionCtx :=
  m.sessions.map Prod.snd

/-- SessionManagerCtx.SetHost: overwrite the host slot and emit
host changed. -/
def SetHost (m : SessionManagerCtx) (host : Option SessionCtx) :
    SessionManagerCtx × List SessionEvent :=
  ({ m with host := host }, [.hostChanged host])

/-- SessionManagerCtx.GetHost: read the host slot. -/
def GetHost (m : SessionManagerCtx) : Option SessionCtx :=
  m.host

/-- SessionManagerCtx.ClearHost is SetHost with no session. -/
def ClearHost (m : SessionManagerCtx) : SessionManagerCtx × List SessionEvent :=
  SetHost m none

/-- SessionManagerCtx.SetCursor: append the cursor to the pending queue of the session
queue, starting a fresh queue when none exists.  Total: never fails. -/
def SetCursor (m : SessionManagerCtx) (cursor : Cursor) (session : SessionCtx) :
    SessionManagerCtx :=
  let list := (mapLookup m.cursors session).getD []
  { m with cursors := mapInsert m.cursors session (list ++ [cursor]) }

/-- SessionManagerCtx.PopCursors: return the whole cursor ledger and replace
it with an empty one. -/
def PopCursors (m : SessionManagerCtx) :
    List (SessionCtx × List Cursor) × SessionManagerCtx :=
  (m.cursors, { m with cursors := [] })

/-- A delivery performed by a broadcast: session.Send(event, payload) on the
surviving session. -/
structure Delivery where
  sessionId : String
  event : String
  payload : String
deriving Repr, DecidableEq

/-- The Go guard: exclude is checked only when non-nil, via
utils.ArrayIn(session.ID(), exclude). -/
def arrayIn (id : String) (exclude : Option (List String)) : Bool :=
  match exclude with
  | none => false
  | some l => l.contains id

/-- The loop body shared by the three broadcasts: walk the session
snapshot, skip sessions failing the filter, skip excluded ids, deliver to
the rest. -/
def broadcastLoop (flt : SessionCtx → Bool) (sessions : List SessionCtx)
    (event payload : String) (exclude : Option (List String)) : List Delivery :=
  match sessions with
  | [] => []
  | s :: rest =>
    if !flt s then broadcastLoop flt rest event payload exclude
    else if arrayIn s.id exclude then broadcastLoop flt rest event payload exclude
    else { sessionId := s.id, event := event, payload := payload } ::
      broadcastLoop flt rest event payload exclude

/-- SessionManagerCtx.Broadcast: deliver to every connected, non-excluded
session of the snapshot. -/
def Broadcast (m : SessionManagerCtx) (event payload : String)
    (exclude : Option (List String)) : List Delivery :=
  broadcastLoop (fun s => s.isConnected) (ListSessions m) event payload exclude

/-- SessionManagerCtx.AdminBroadcast: additionally requires IsAdmin. -/
def AdminBroadcast (m : SessionManagerCtx) (event payload : String)
    (exclude : Option (List String)) : List Delivery :=
  broadcastLoop (fun s => s.isConnected && s.profile.isAdmin)
    (ListSessions m) event payload exclude

/-- SessionManagerCtx.InactiveCursorsBroadcast: additionally requires
CanSeeInactiveCursors. -/
def InactiveCursorsBroadcast (m : SessionManagerCtx) (event payload : String)
    (exclude : Option (List String)) : List Delivery :=
  broadcastLoop (fun s => s.isConnected && s.profile.canSeeInactiveCursors)
    (ListSessions m) event payload exclude

/-- Statement of the spec wording for the broadcasts, used to compare the
loop against: exactly the sessions of the snapshot passing the filter and
not excluded receive the payload. -/
def broadcastSpec (flt : SessionCtx → Bool) (m : SessionManagerCtx)
    (event payload : String) (exclude : Option (List String)) : List Delivery :=
  ((ListSessions m).filter fun s => flt s && !arrayIn s.id exclude).map
    fun s => { sessionId := s.id, event := event, payload := payload }

/-- A sequence element of Create/Delete calls against the registry (claim
about all such sequences); the token argument is the value produced by the
random generator for that call. -/
inductive RegOp where
  | create (id : String) (profile : MemberProfile) (token : String)
  | delete (id : String)
deriving Repr, DecidableEq

/-- State transition of one registry call (the state component of the
operation; results and events are dropped). -/
def applyRegOp (m : SessionManagerCtx) : RegOp → SessionManagerCtx
  | .create id profile token => (Create m id profile token).2.1
  | .delete id => (Delete m id).2.1

/-- Run a sequence of Create/Delete calls from a starting state. -/
def runRegOps (ops : List RegOp) (m : SessionManagerCtx) : SessionManagerCtx :=
  ops.foldl applyRegOp m

/-- Mutual consistency of the token map and the session map: every token
entry resolves to a session whose issued token is that entry, and the token
of every session entry resolves back to that session id. -/
def registryConsistent (m : SessionManagerCtx) : Bool :=
  (m.tokens.all fun p =>
    match mapLookup m.sessions p.2 with
    | some s => s.token == p.1
    | none => false) &&
  (m.sessions.all fun q => mapLookup m.tokens q.2.token == some q.1)

/-- Any registry call except SetHost and ClearHost (the claim: only those
two touch the host slot). -/
inductive NonHostOp where
  | create (id : String) (profile : MemberProfile) (token : String)
  | update (id : String) (profile : MemberProfile)
  | delete (id : String)
  | setCur (c : Cursor) (s : SessionCtx)
  | pop
deriving Repr, DecidableEq

/-- State transition of one non-host registry call. -/
def applyNonHostOp (m : SessionManagerCtx) : NonHostOp → SessionManagerCtx
  | .create id profile token => (Create m id profile token).2.1
  | .update id profile => (Update m id profile).2.1
  | .delete id => (Delete m id).2.1
  | .setCur c s => SetCursor m c s
  | .pop => (PopCursors m).2

/-- Run a sequence of non-host registry calls. -/
def runNonHostOps (ops : List NonHostOp) (m : SessionManagerCtx) : SessionManagerCtx :=
  ops.foldl applyNonHostOp m

/-- A SetCursor call in an interleaving between two PopCursors calls. -/
inductive CursorOp where
  | setCur (c : Cursor) (s : SessionCtx)
deriving Repr, DecidableEq

/-- State transition of one SetCursor call. -/
def applyCursorOp (m : SessionManagerCtx) : CursorOp → SessionManagerCtx
  | .setCur c s => SetCursor m c s

/-- Run a sequence of SetCursor calls. -/
def runCursorOps (ops : List CursorOp) (m : SessionManagerCtx) : SessionManagerCtx :=
  ops.foldl applyCursorOp m

/-- The cursors a sequence of SetCursor calls passes for one session, in
call (append) order. -/
def setsFor (ops : List CursorOp) (s : SessionCtx) : List Cursor :=
  ops.filterMap fun op =>
    match op with
    | .setCur c s2 => if s2 = s then some c else none

/-- SDP description types used by peer.go (webrtc.SDPTypeOffer and
webrtc.SDPTypeAnswer). -/
inductive SDPType where
  | offer
  | answer
deriving Repr, DecidableEq

/-- webrtc.SessionDescription: the sdp and type pair of the signaling
payload. -/
structure SessionDescription where
  sdpType : SDPType
  sdp : String
deriving Repr, DecidableEq

/-- The underlying pion peer connection, modelled at the interface boundary
the spec gives for the external negotiation library (sections 4.2 and 6):
local and remote descriptions, remote candidates, a gathering-completion
flag, and the description bodies its CreateOffer and CreateAnswer calls
would produce. -/
structure PeerConnection where
  localDesc : Option SessionDescription
  remoteDesc : Option SessionDescription
  remoteCandidates : List String
  gatheringComplete : Bool
  offerSDP : String
  answerSDP : String
deriving Repr, DecidableEq

/-- Observable side effects of the engine on the underlying connection, in
the order they are performed; waitGatherComplete is the blocking receive on
the gathering-complete channel. -/
inductive PeerEffect where
  | setLocalDesc (d : SessionDescription)
  | waitGatherComplete
  | setRemoteDesc (d : SessionDescription)
  | addCandidate (c : String)
  | videoChanged (id : String)
  | closeConnection
deriving Repr, DecidableEq

/-- types.ErrWebRTCConnectionNotFound. -/
inductive WebRTCError where
  | connectionNotFound
deriving Repr, DecidableEq

/-- WebRTCPeerCtx: the engine state, a nullable connection handle and the
trickle flag fixed at construction. -/
structure WebRTCPeerCtx where
  connection : Option PeerConnection
  iceTrickle : Bool
deriving Repr, DecidableEq

/-- pion LocalDescription(): the description stored on the connection. -/
def localDescription (conn : PeerConnection) : Option SessionDescription :=
  conn.localDesc

/-- WebRTCPeerCtx.setLocalDescription (peer.go lines 55 to 72): in
non-trickle mode subscribe to gathering completion, set the local
description, then block on the completion channel before reading the
description back; in trickle mode set the description and read it back
immediately. -/
def setLocalDescription (peer : WebRTCPeerCtx) (conn : PeerConnection)
    (description : SessionDescription) :
    Except WebRTCError (Option SessionDescription) × WebRTCPeerCtx × List PeerEffect :=
  if !peer.iceTrickle then
    let conn2 := { conn with localDesc := some description, gatheringComplete := true }
    (.ok (localDescription conn2),
     { peer with connection := some conn2 },
     [.setLocalDesc description, .waitGatherComplete])
  else
    let conn2 := { conn with localDesc := some description }
    (.ok (localDescription conn2),
     { peer with connection := some conn2 },
     [.setLocalDesc description])

/-- WebRTCPeerCtx.CreateOffer: ConnectionNotFound without a live
connection; otherwise generate the offer and commit it through
setLocalDescription. -/
def CreateOffer (peer : WebRTCPeerCtx) (_ICERestart : Bool) :
    Except WebRTCError (Option SessionDescription) × WebRTCPeerCtx × List PeerEffect :=
  match peer.connection with
  | none => (.error .connectionNotFound, peer, [])
  | some conn =>
    let offer : SessionDescription := { sdpType := .offer, sdp := conn.offerSDP }
    setLocalDescription peer conn offer

/-- WebRTCPeerCtx.CreateAnswer: ConnectionNotFound without a live
connection; otherwise generate the answer and commit it through
setLocalDescription. -/
def CreateAnswer (peer : WebRTCPeerCtx) :
    Except WebRTCError (Option SessionDescription) × WebRTCPeerCtx × List PeerEffect :=
  match peer.connection with
  | none => (.error .connectionNotFound, peer, [])
  | some conn =>
    let answer : SessionDescription := { sdpType := .answer, sdp := conn.answerSDP }
    setLocalDescription peer conn answer

/-- WebRTCPeerCtx.SetOffer: install a remote description of type offer. -/
def SetOffer (peer : WebRTCPeerCtx) (sdp : String) :
    Except WebRTCError Unit × WebRTCPeerCtx × List PeerEffect :=
  match peer.connection with
  | none => (.error .connectionNotFound, peer, [])
  | some conn =>
    let d : SessionDescription := { sdpType := .offer, sdp := sdp }
    (.ok (),
     { peer with connection := some { conn with remoteDesc := some d } },
     [.setRemoteDesc d])

/-- WebRTCPeerCtx.SetAnswer: install a remote description of type
answer. -/
def SetAnswer (peer : WebRTCPeerCtx) (sdp : String) :
    Except WebRTCError Unit × WebRTCPeerCtx × List PeerEffect :=
  match peer.connection with
  | none => (.error .connectionNotFound, peer, [])
  | some conn =>
    let d : SessionDescription := { sdpType := .answer, sdp := sdp }
    (.ok (),
     { peer with connection := some { conn with remoteDesc := some d } },
     [.setRemoteDesc d])

/-- WebRTCPeerCtx.SetCandidate: add a remote ICE candidate. -/
def SetCandidate (peer : WebRTCPeerCtx) (candidate : String) :
    Except WebRTCError Unit × WebRTCPeerCtx × List PeerEffect :=
  match peer.connection with
  | none => (.error .connectionNotFound, peer, [])
  | some conn =>
    let conn2 := { conn with remoteCandidates := conn.remoteCandidates ++ [candidate] }
    (.ok (),
     { peer with connection := some conn2 },
     [.addCandidate candidate])

/-- WebRTCPeerCtx.SetVideoID: invoke the video-switch callback. -/
def SetVideoID (peer : WebRTCPeerCtx) (videoID : String) :
    Except WebRTCError Unit × WebRTCPeerCtx × List PeerEffect :=
  match peer.connection with
  | none => (.error .connectionNotFound, peer, [])
  | some _ => (.ok (), peer, [.videoChanged videoID])

/-- WebRTCPeerCtx.Destroy: close the connection if one is present and clear
the handle; a missing connection is left alone.  The operation returns no
error in either case. -/
def Destroy (peer : WebRTCPeerCtx) : WebRTCPeerCtx × List PeerEffect :=
  match peer.connection with
  | none => (peer, [])
  | some _ => ({ peer with connection := none }, [.closeConnection])

/-- Number of connection-close side effects in an effect trace. -/
def countClose (effects : List PeerEffect) : Nat :=
  effects.countP fun e =>
    match e with
    | .closeConnection => true
    | _ => false

/-!
Concrete states used by the witnesses.
-/

/-- An all-false capability profile for concrete states. -/
def profile0 : MemberProfile :=
  { name := "guest", isAdmin := false, canLogin := false, canConnect := false,
    canWatch := false, canHost := false, canAccessClipboard := false,
    canSeeInactiveCursors := false }

/-- A registry holding one registered session u1, built by Create from a
fresh registry without an API token. -/
def mEx : SessionManagerCtx := (Create (New "") "u1" profile0 "t1").2.1

/-- An engine whose connection was never created. -/
def peerIdle : WebRTCPeerCtx := { connection := none, iceTrickle := false }

/-!
Theorems.
-/

/-- C2: Failed registry mutations are atomic no-ops: Create with an
already-registered id fails with AlreadyExists, Update and Delete with an
unknown id fail with NotFound, and in every such failure the whole registry
state (session map, token map, host slot, cursor map, API session) is
returned unchanged and no event is emitted. -/
theorem failed_mutations_are_noops (m : SessionManagerCtx) (id : String)
    (profile : MemberProfile) (token : String) :
    ((mapLookup m.sessions id).isSome = true →
      Create m id profile token = (.error .sessionAlreadyExists, m, [])) ∧
    (mapLookup m.sessions id = none →
      Update m id profile = (.error .sessionNotFound, m, []) ∧
      Delete m id = (.error .sessionNotFound, m, [])) := by
  constructor
  · intro h
    simp [Create, h]
  · intro h
    constructor
    · simp [Update, h]
    · simp [Delete, h]

/-- Witness for C2 at a concrete registry: u1 is registered, u2 is not. -/
theorem failed_mutations_are_noops_witness :
    Create mEx "u1" profile0 "t9" = (.error .sessionAlreadyExists, mEx, []) ∧
    Update mEx "u2" profile0 = (.error .sessionNotFound, mEx, []) ∧
    Delete mEx "u2" = (.error .sessionNotFound, mEx, []) :=
  ⟨(failed_mutations_are_noops mEx "u1" profile0 "t9").1 (by decide),
   ((failed_mutations_are_noops mEx "u2" profile0 "t9").2 (by decide)).1,
   ((failed_mutations_are_noops mEx "u2" profile0 "t9").2 (by decide)).2⟩

/-- Each non-host registry call leaves the host slot untouched. -/
theorem applyNonHostOp_host (m : SessionManagerCtx) (op : NonHostOp) :
    (applyNonHostOp m op).host = m.host := by
  cases op with
  | create id p t =>
    by_cases h1 : (mapLookup m.sessions id).isSome
    · simp [applyNonHostOp, Create, h1]
    · by_cases h2 : (mapLookup m.tokens t).isSome
      · simp [applyNonHostOp, Create, h1, h2]
      · simp [applyNonHostOp, Create, h1, h2]
  | update id p =>
    cases hm : mapLookup m.sessions id <;> simp [applyNonHostOp, Update, hm]
  | delete id =>
    cases hm : mapLookup m.sessions id <;> simp [applyNonHostOp, Delete, hm]
  | setCur c s => simp [applyNonHostOp, SetCursor]
  | pop => simp [applyNonHostOp, PopCursors]

/-- Sequences of non-host registry calls leave the host slot untouched. -/
theorem runNonHostOps_host (ops : List NonHostOp) (m : SessionManagerCtx) :
    (runNonHostOps ops m).host = m.host := by
  induction ops generalizing m with
  | nil => rfl
  | cons op rest ih =>
    show (runNonHostOps rest (applyNonHostOp m op)).host = m.host
    rw [ih, applyNonHostOp_host]

/-- C5: Delete never modifies the host slot: after deleting any id, and
after any further sequence of registry calls other than SetHost and
ClearHost, GetHost still returns exactly what it returned before; in
particular deleting the current host leaves that session in the host slot
until an explicit SetHost or ClearHost. -/
theorem delete_preserves_host (m : SessionManagerCtx) (id : String)
    (ops : List NonHostOp) :
    GetHost (runNonHostOps ops (Delete m id).2.1) = GetHost m ∧
    (∀ h2, GetHost (SetHost m h2).1 = h2) ∧
    GetHost (ClearHost m).1 = none := by
  refine ⟨?_, fun h2 => rfl, rfl⟩
  show (runNonHostOps ops (Delete m id).2.1).host = m.host
  rw [runNonHostOps_host]
  exact applyNonHostOp_host m (.delete id)

/-- C6: Every negotiation operation invoked on an engine whose connection
handle is absent fails with ConnectionNotFound, leaves the engine
unchanged, and performs no side effect. -/
theorem negotiation_requires_connection (peer : WebRTCPeerCtx)
    (ICERestart : Bool) (sdp candidate videoID : String)
    (h : peer.connection = none) :
    CreateOffer peer ICERestart = (.error .connectionNotFound, peer, []) ∧
    CreateAnswer peer = (.error .connectionNotFound, peer, []) ∧
    SetOffer peer sdp = (.error .connectionNotFound, peer, []) ∧
    SetAnswer peer sdp = (.error .connectionNotFound, peer, []) ∧
    SetCandidate peer candidate = (.error .connectionNotFound, peer, []) ∧
    SetVideoID peer videoID = (.error .connectionNotFound, peer, []) := by
  refine ⟨?_, ?_, ?_, ?_, ?_, ?_⟩ <;>
    simp [CreateOffer, CreateAnswer, SetOffer, SetAnswer, SetCandidate,
      SetVideoID, h]

/-- Witness for C6 at a concrete never-connected engine. -/
theorem negotiation_requires_connection_witness :
    CreateOffer peerIdle false = (.error .connectionNotFound, peerIdle, []) ∧
    SetCandidate peerIdle "cand" = (.error .connectionNotFound, peerIdle, []) :=
  ⟨(negotiation_requires_connection peerIdle false "s" "cand" "v" rfl).1,
   (negotiation_requires_connection peerIdle false "s" "cand" "v" rfl).2.2.2.2.1⟩

/-- C7: Destroy is idempotent: destroying twice reaches the same state as
destroying once, the second Destroy performs no side effect, at most one
close happens across both calls, the handle is cleared, a Destroy of a
never-created connection is a silent success, and operations after a
Destroy report ConnectionNotFound.  Destroy returns no error by its type:
its result is just the successor state and the effect trace. -/
theorem destroy_idempotent (peer : WebRTCPeerCtx) (ICERestart : Bool) :
    (Destroy (Destroy peer).1).1 = (Destroy peer).1 ∧
    (Destroy (Destroy peer).1).2 = [] ∧
    countClose ((Destroy peer).2 ++ (Destroy (Destroy peer).1).2) ≤ 1 ∧
    (Destroy peer).1.connection = none ∧
    (peer.connection = none → Destroy peer = (peer, [])) ∧
    (CreateOffer (Destroy peer).1 ICERestart).1 = .error .connectionNotFound := by
  cases hc : peer.connection with
  | none =>
    refine ⟨?_, ?_, ?_, ?_, ?_, ?_⟩ <;>
      simp [Destroy, hc, countClose, CreateOffer]
  | some conn =>
    refine ⟨?_, ?_, ?_, ?_, ?_, ?_⟩ <;>
      simp [Destroy, hc, countClose, CreateOffer]

/-- Witness for C7 at a concrete never-connected engine. -/
theorem destroy_idempotent_witness :
    (Destroy (Destroy peerIdle).1).1 = (Destroy peerIdle).1 ∧
    Destroy peerIdle = (peerIdle, []) :=
  ⟨(destroy_idempotent peerIdle false).1,
   (destroy_idempotent peerIdle false).2.2.2.2.1 rfl⟩

/-- The broadcast loop delivers to exactly the snapshot sessions that pass
the filter and are not excluded, in snapshot order. -/
theorem broadcastLoop_eq (flt : SessionCtx → Bool) (sessions : List SessionCtx)
    (event payload : String) (exclude : Option (List String)) :
    broadcastLoop flt sessions event payload exclude =
      (sessions.filter fun s => flt s && !arrayIn s.id exclude).map
        (fun s => { sessionId := s.id, event := event, payload := payload }) := by
  induction sessions with
  | nil => rfl
  | cons s rest ih =>
    by_cases h1 : flt s = true
    · by_cases h2 : arrayIn s.id exclude = true
      · simp [broadcastLoop, h1, h2, List.filter_cons, ih]
      · simp [broadcastLoop, h1, h2, List.filter_cons, ih]
    · simp [broadcastLoop, h1, List.filter_cons, ih]

/-- A delivery of the spec-shaped broadcast comes from a snapshot session
that passes the filter and is not excluded. -/
theorem mem_broadcastSpec (flt : SessionCtx → Bool) (m : SessionManagerCtx)
    (event payload : String) (exclude : Option (List String)) (d : Delivery)
    (hd : d ∈ broadcastSpec flt m event payload exclude) :
    arrayIn d.sessionId exclude = false ∧
    ∃ s, s ∈ ListSessions m ∧ flt s = true ∧ s.id = d.sessionId := by
  simp only [broadcastSpec, List.mem_map, List.mem_filter] at hd
  obtain ⟨s, ⟨hmem, hcond⟩, heq⟩ := hd
  rw [Bool.and_eq_true] at hcond
  refine ⟨?_, s, hmem, hcond.1, ?_⟩
  · rw [← heq]
    simpa using hcond.2
  · rw [← heq]

/-- C3: For every registry state, payload and exclusion list, Broadcast
delivers to exactly the connected sessions of the snapshot whose id is not
excluded, AdminBroadcast to exactly those that are additionally admins,
InactiveCursorsBroadcast to exactly those that may additionally see
inactive cursors; every delivery of any of the three goes to a connected,
non-excluded snapshot session. -/
theorem broadcast_exact (m : SessionManagerCtx) (event payload : String)
    (exclude : Option (List String)) :
    Broadcast m event payload exclude =
      broadcastSpec (fun s => s.isConnected) m event payload exclude ∧
    AdminBroadcast m event payload exclude =
      broadcastSpec (fun s => s.isConnected && s.profile.isAdmin)
        m event payload exclude ∧
    InactiveCursorsBroadcast m event payload exclude =
      broadcastSpec (fun s => s.isConnected && s.profile.canSeeInactiveCursors)
        m event payload exclude ∧
    (∀ d, (d ∈ Broadcast m event payload exclude ∨
           d ∈ AdminBroadcast m event payload exclude ∨
           d ∈ InactiveCursorsBroadcast m event payload exclude) →
      arrayIn d.sessionId exclude = false ∧
      ∃ s, s ∈ ListSessions m ∧ s.isConnected = true ∧ s.id = d.sessionId) := by
  have hb : Broadcast m event payload exclude =
      broadcastSpec (fun s => s.isConnected) m event payload exclude :=
    broadcastLoop_eq _ _ _ _ _
  have ha : AdminBroadcast m event payload exclude =
      broadcastSpec (fun s => s.isConnected && s.profile.isAdmin)
        m event payload exclude :=
    broadcastLoop_eq _ _ _ _ _
  have hi : InactiveCursorsBroadcast m event payload exclude =
      broadcastSpec (fun s => s.isConnected && s.profile.canSeeInactiveCursors)
        m event payload exclude :=
    broadcastLoop_eq _ _ _ _ _
  refine ⟨hb, ha, hi, ?_⟩
  intro d hd
  rcases hd with h | h | h
  · rw [hb] at h
    obtain ⟨hexc, s, hmem, hflt, hid⟩ := mem_broadcastSpec _ _ _ _ _ _ h
    exact ⟨hexc, s, hmem, hflt, hid⟩
  · rw [ha] at h
    obtain ⟨hexc, s, hmem, hflt, hid⟩ := mem_broadcastSpec _ _ _ _ _ _ h
    rw [Bool.and_eq_true] at hflt
    exact ⟨hexc, s, hmem, hflt.1, hid⟩
  · rw [hi] at h
    obtain ⟨hexc, s, hmem, hflt, hid⟩ := mem_broadcastSpec _ _ _ _ _ _ h
    rw [Bool.and_eq_true] at hflt
    exact ⟨hexc, s, hmem, hflt.1, hid⟩

/-- A connected admin session for the concrete broadcast registry. -/
def sessAdminConn : SessionCtx :=
  { id := "admin", token := "ta", profile := { profile0 with isAdmin := true },
    isConnected := true, isWatching := false }

/-- A connected non-admin session for the concrete broadcast registry. -/
def sessGuestConn : SessionCtx :=
  { id := "guest", token := "tg", profile := profile0,
    isConnected := true, isWatching := false }

/-- A registry holding one connected admin and one connected guest. -/
def mB : SessionManagerCtx :=
  { tokens := [("ta", "admin"), ("tg", "guest")]
    sessions := [("admin", sessAdminConn), ("guest", sessGuestConn)]
    host := none
    cursors := []
    apiSession := none }

/-- Witness for C3 at the concrete registry: the loop matches the filter
description, and a concrete admin delivery is neither excluded nor to a
disconnected session. -/
theorem broadcast_exact_witness :
    Broadcast mB "x" "p" none =
      broadcastSpec (fun s => s.isConnected) mB "x" "p" none ∧
    arrayIn "admin" none = false := by
  refine ⟨(broadcast_exact mB "x" "p" none).1, ?_⟩
  exact ((broadcast_exact mB "x" "p" none).2.2.2
    { sessionId := "admin", event := "x", payload := "p" }
    (Or.inr (Or.inl (by decide)))).1

/-- Appending one cursor for one session: the appended queue is read back
for that session. -/
theorem setCursor_lookup_self (m : SessionManagerCtx) (c : Cursor)
    (s : SessionCtx) :
    mapLookup (SetCursor m c s).cursors s =
      some ((mapLookup m.cursors s).getD [] ++ [c]) := by
  simp [SetCursor, mapLookup_insert_self]

/-- Appending one cursor for one session leaves the queues of other sessions
untouched. -/
theorem setCursor_lookup_ne (m : SessionManagerCtx) (c : Cursor)
    (s s2 : SessionCtx) (h : s ≠ s2) :
    mapLookup (SetCursor m c s).cursors s2 = mapLookup m.cursors s2 := by
  simp [SetCursor, mapLookup_insert_ne _ _ _ _ h]

/-- Running SetCursor calls accumulates, per session, the passed cursors in
call order behind whatever the ledger already held. -/
theorem runCursorOps_lookup (ops : List CursorOp) (m : SessionManagerCtx)
    (s : SessionCtx) :
    mapLookup (runCursorOps ops m).cursors s =
      (if setsFor ops s = [] then mapLookup m.cursors s
       else some ((mapLookup m.cursors s).getD [] ++ setsFor ops s)) := by
  induction ops generalizing m with
  | nil => simp [runCursorOps, setsFor]
  | cons op rest ih =>
    obtain ⟨c, s2⟩ := op
    show mapLookup (runCursorOps rest (SetCursor m c s2)).cursors s = _
    rw [ih]
    by_cases hs : s2 = s
    · subst hs
      rw [setCursor_lookup_self]
      have hcons : setsFor (CursorOp.setCur c s2 :: rest) s2 = c :: setsFor rest s2 := by
        simp [setsFor]
      rw [hcons]
      by_cases hr : setsFor rest s2 = []
      · simp [hr]
      · simp [hr, List.append_assoc]
    · have hne : ¬s = s2 := fun hc => hs hc.symm
      rw [setCursor_lookup_ne m c s2 s (fun hc => hs hc)]
      have hcons : setsFor (CursorOp.setCur c s2 :: rest) s = setsFor rest s := by
        simp [setsFor, hs]
      rw [hcons]

/-- C4: For every interleaving of SetCursor and PopCursors calls,
PopCursors returns per session, in append order, exactly the cursors passed
to SetCursor since the previous PopCursors, and the ledger it leaves behind
is empty; SetCursor and PopCursors are total, so SetCursor never fails.
The state after the previous PopCursors is an arbitrary registry state with
its ledger drained, which also covers the freshly constructed registry. -/
theorem pop_cursors_exact (m : SessionManagerCtx) (ops : List CursorOp)
    (s : SessionCtx) :
    mapLookup (PopCursors (runCursorOps ops (PopCursors m).2)).1 s =
      (if setsFor ops s = [] then none else some (setsFor ops s)) ∧
    (PopCursors (runCursorOps ops (PopCursors m).2)).2.cursors = [] ∧
    (PopCursors m).1 = m.cursors := by
  refine ⟨?_, rfl, rfl⟩
  show mapLookup (runCursorOps ops (PopCursors m).2).cursors s = _
  rw [runCursorOps_lookup]
  have h0 : mapLookup ((PopCursors m).2).cursors s = none := rfl
  rw [h0]
  by_cases hr : setsFor ops s = []
  · simp [hr]
  · simp [hr]

/-- Create preserves the mutual consistency of the token map and the
session map. -/
theorem registryConsistent_create (m : SessionManagerCtx) (id : String)
    (profile : MemberProfile) (token : String)
    (h : registryConsistent m = true) :
    registryConsistent (Create m id profile token).2.1 = true := by
  by_cases h1 : (mapLookup m.sessions id).isSome
  · simpa [Create, h1] using h
  · by_cases h2 : (mapLookup m.tokens token).isSome
    · simpa [Create, h1, h2] using h
    · have hid : mapLookup m.sessions id = none := by
        cases hm : mapLookup m.sessions id with
        | none => rfl
        | some s => rw [hm] at h1; simp at h1
      have htok : mapLookup m.tokens token = none := by
        cases hm : mapLookup m.tokens token with
        | none => rfl
        | some i => rw [hm] at h2; simp at h2
      have hstate : (Create m id profile token).2.1 =
          { m with tokens := mapInsert m.tokens token id,
                   sessions := mapInsert m.sessions id
                     { id := id, token := token, profile := profile,
                       isConnected := false, isWatching := false } } := by
        simp [Create, h1, h2]
      rw [hstate]
      rw [registryConsistent, Bool.and_eq_true, List.all_eq_true, List.all_eq_true] at h
      obtain ⟨htoks, hsess⟩ := h
      rw [registryConsistent, Bool.and_eq_true, List.all_eq_true, List.all_eq_true]
      constructor
      · intro p hp
        rw [mem_mapInsert_fresh _ _ _ _ htok] at hp
        rcases hp with hp | hp
        · have hold := htoks p hp
          have hne : p.2 ≠ id := by
            intro hc
            rw [hc, hid] at hold
            simp at hold
          rw [mapLookup_insert_ne m.sessions id p.2 _ (fun hc => hne hc.symm)]
          exact hold
        · subst hp
          rw [mapLookup_insert_self]
          simp
      · intro q hq
        rw [mem_mapInsert_fresh _ _ _ _ hid] at hq
        rcases hq with hq | hq
        · have hold := hsess q hq
          have hne : q.2.token ≠ token := by
            intro hc
            rw [hc, htok] at hold
            simp at hold
          rw [mapLookup_insert_ne m.tokens token q.2.token _ (fun hc => hne hc.symm)]
          exact hold
        · subst hq
          rw [mapLookup_insert_self]
          simp

/-- Delete preserves the mutual consistency of the token map and the
session map. -/
theorem registryConsistent_delete (m : SessionManagerCtx) (id : String)
    (h : registryConsistent m = true) :
    registryConsistent (Delete m id).2.1 = true := by
  cases hm : mapLookup m.sessions id with
  | none => simpa [Delete, hm] using h
  | some s0 =>
    have hstate : (Delete m id).2.1 =
        { m with tokens := mapErase m.tokens s0.token,
                 sessions := mapErase m.sessions id } := by
      simp [Delete, hm]
    rw [hstate]
    rw [registryConsistent, Bool.and_eq_true, List.all_eq_true, List.all_eq_true] at h
    obtain ⟨htoks, hsess⟩ := h
    have hs0mem : (id, s0) ∈ m.sessions := mem_of_mapLookup_some _ _ _ hm
    have hs0tok : mapLookup m.tokens s0.token = some id := by
      have := hsess (id, s0) hs0mem
      simpa using this
    rw [registryConsistent, Bool.and_eq_true, List.all_eq_true, List.all_eq_true]
    constructor
    · intro p hp
      rw [mem_mapErase] at hp
      obtain ⟨hpmem, hpne⟩ := hp
      have hold := htoks p hpmem
      have hne : p.2 ≠ id := by
        intro hc
        rw [hc, hm] at hold
        simp at hold
        exact hpne hold.symm
      rw [mapLookup_erase_ne m.sessions id p.2 (fun hc => hne hc.symm)]
      exact hold
    · intro q hq
      rw [mem_mapErase] at hq
      obtain ⟨hqmem, hqne⟩ := hq
      have hold := hsess q hqmem
      have hne : q.2.token ≠ s0.token := by
        intro hc
        rw [hc, hs0tok] at hold
        simp at hold
        exact hqne hold.symm
      rw [mapLookup_erase_ne m.tokens s0.token q.2.token (fun hc => hne hc.symm)]
      exact hold

/-- Running any Create/Delete sequence preserves consistency. -/
theorem registryConsistent_run (ops : List RegOp) (m : SessionManagerCtx)
    (h : registryConsistent m = true) :
    registryConsistent (runRegOps ops m) = true := by
  induction ops generalizing m with
  | nil => exact h
  | cons op rest ih =>
    show registryConsistent (runRegOps rest (applyRegOp m op)) = true
    apply ih
    cases op with
    | create id p t => exact registryConsistent_create m id p t h
    | delete id => exact registryConsistent_delete m id h

/-- C1: For every sequence of Create and Delete calls starting from a fresh
registry, the token map and the session map stay mutually consistent: every
token entry resolves to a session whose issued token is that entry, and
the token of every session entry resolves back to its id; moreover a successful
Delete removes the session entry and its token entry together. -/
theorem create_delete_consistent (apiToken : String) (ops : List RegOp) :
    registryConsistent (runRegOps ops (New apiToken)) = true ∧
    (∀ (m : SessionManagerCtx) (id : String) (s : SessionCtx),
      mapLookup m.sessions id = some s →
        mapLookup (Delete m id).2.1.sessions id = none ∧
        mapLookup (Delete m id).2.1.tokens s.token = none) := by
  constructor
  · exact registryConsistent_run ops (New apiToken) rfl
  · intro m id s hm
    have hstate : (Delete m id).2.1 =
        { m with tokens := mapErase m.tokens s.token,
                 sessions := mapErase m.sessions id } := by
      simp [Delete, hm]
    rw [hstate]
    exact ⟨mapLookup_erase_self _ _, mapLookup_erase_self _ _⟩

/-- The session u1 as registered in the concrete registry mEx. -/
def sessEx : SessionCtx :=
  { id := "u1", token := "t1", profile := profile0,
    isConnected := false, isWatching := false }

/-- Witness for C1: a concrete create/delete run is consistent, and a
concrete Delete removes both entries. -/
theorem create_delete_consistent_witness :
    registryConsistent (runRegOps
      [RegOp.create "u1" profile0 "t1", RegOp.delete "u1"] (New "")) = true ∧
    mapLookup (Delete mEx "u1").2.1.sessions "u1" = none ∧
    mapLookup (Delete mEx "u1").2.1.tokens "t1" = none := by
  refine ⟨(create_delete_consistent ""
    [RegOp.create "u1" profile0 "t1", RegOp.delete "u1"]).1, ?_, ?_⟩
  · exact ((create_delete_consistent "" []).2 mEx "u1" sessEx (by decide)).1
  · exact ((create_delete_consistent "" []).2 mEx "u1" sessEx (by decide)).2

/-- The offer a connection generates: type offer, body from the
connection. -/
def offerOf (conn : PeerConnection) : SessionDescription :=
  { sdpType := .offer, sdp := conn.offerSDP }

/-- The answer a connection generates: type answer, body from the
connection. -/
def answerOf (conn : PeerConnection) : SessionDescription :=
  { sdpType := .answer, sdp := conn.answerSDP }

/-- Engine state after a blocking (non-trickle) local-description commit:
the description is installed and gathering has completed. -/
def peerAfterBlockingCommit (peer : WebRTCPeerCtx) (conn : PeerConnection)
    (d : SessionDescription) : WebRTCPeerCtx :=
  { peer with connection := some { conn with localDesc := some d, gatheringComplete := true } }

/-- Engine state after an immediate (trickle) local-description commit: the
description is installed and gathering is untouched. -/
def peerAfterImmediateCommit (peer : WebRTCPeerCtx) (conn : PeerConnection)
    (d : SessionDescription) : WebRTCPeerCtx :=
  { peer with connection := some { conn with localDesc := some d } }

/-- C8: On a live connection, the local-description commit of CreateOffer
and CreateAnswer in non-trickle mode performs the blocking wait for
gathering completion before returning (the effect trace ends with the wait
and the post-state has gathering complete), and returns the stored
local description of the committed type, non-empty whenever the generated
body is non-empty; in trickle mode the commit returns immediately after
setting the local description, with no wait effect. -/
theorem nontrickle_commit_blocks (peer : WebRTCPeerCtx) (conn : PeerConnection)
    (ICERestart : Bool) (hconn : peer.connection = some conn) :
    (peer.iceTrickle = false →
      CreateOffer peer ICERestart =
        (.ok (some (offerOf conn)), peerAfterBlockingCommit peer conn (offerOf conn),
         [.setLocalDesc (offerOf conn), .waitGatherComplete]) ∧
      CreateAnswer peer =
        (.ok (some (answerOf conn)), peerAfterBlockingCommit peer conn (answerOf conn),
         [.setLocalDesc (answerOf conn), .waitGatherComplete])) ∧
    (peer.iceTrickle = true →
      CreateOffer peer ICERestart =
        (.ok (some (offerOf conn)), peerAfterImmediateCommit peer conn (offerOf conn),
         [.setLocalDesc (offerOf conn)]) ∧
      CreateAnswer peer =
        (.ok (some (answerOf conn)), peerAfterImmediateCommit peer conn (answerOf conn),
         [.setLocalDesc (answerOf conn)])) ∧
    ((offerOf conn).sdpType = .offer ∧ (answerOf conn).sdpType = .answer ∧
      (conn.offerSDP ≠ "" → (offerOf conn).sdp ≠ "") ∧
      (conn.answerSDP ≠ "" → (answerOf conn).sdp ≠ "")) ∧
    (peerAfterBlockingCommit peer conn (offerOf conn)).connection =
      some { conn with localDesc := some (offerOf conn), gatheringComplete := true } := by
  refine ⟨?_, ?_, ⟨rfl, rfl, fun h => h, fun h => h⟩, rfl⟩
  · intro ht
    constructor <;>
      simp [CreateOffer, CreateAnswer, setLocalDescription, hconn, ht,
        offerOf, answerOf, peerAfterBlockingCommit, localDescription]
  · intro ht
    constructor <;>
      simp [CreateOffer, CreateAnswer, setLocalDescription, hconn, ht,
        offerOf, answerOf, peerAfterImmediateCommit, localDescription]

/-- A concrete live connection with non-empty generated bodies. -/
def conn0 : PeerConnection :=
  { localDesc := none, remoteDesc := none, remoteCandidates := [],
    gatheringComplete := false, offerSDP := "v=0 offer", answerSDP := "v=0 answer" }

/-- A concrete connected non-trickle engine. -/
def peerLive : WebRTCPeerCtx := { connection := some conn0, iceTrickle := false }

/-- Witness for C8 at the concrete non-trickle engine. -/
theorem nontrickle_commit_blocks_witness :
    CreateOffer peerLive false =
      (.ok (some (offerOf conn0)), peerAfterBlockingCommit peerLive conn0 (offerOf conn0),
       [.setLocalDesc (offerOf conn0), .waitGatherComplete]) ∧
    (offerOf conn0).sdp ≠ "" :=
  ⟨((nontrickle_commit_blocks peerLive conn0 false rfl).1 rfl).1,
   (nontrickle_commit_blocks peerLive conn0 false rfl).2.2.1.2.2.1 (by decide)⟩

/-- The API session record provisioned when the service token is svc. -/
def apiSessSvc : SessionCtx :=
  { id := "API", token := "svc", profile := apiProfile,
    isConnected := false, isWatching := false }

/-- The registered session that shadows the service token svc. -/
def sessShadow : SessionCtx :=
  { id := "u1", token := "svc", profile := profile0,
    isConnected := false, isWatching := false }

/-- The registry where the token of a created session equals the configured
service token. -/
def mShadow : SessionManagerCtx := (Create (New "svc") "u1" profile0 "svc").2.1

/-- C9 counterexample: with service token svc configured, Create accepts a
session whose generated token is exactly svc, and GetByToken svc then
resolves the registered session u1, not the distinguished service session:
the token map is consulted before the service session, so the claim that
GetByToken with the configured service token always resolves the service
session, bypassing the normal token map, is false at this state. -/
theorem get_by_token_service_counterexample :
    (New "svc").apiSession = some apiSessSvc ∧
    (Create (New "svc") "u1" profile0 "svc").1 = .ok (sessShadow, "svc") ∧
    GetByToken mShadow "svc" = some sessShadow ∧
    sessShadow.id ≠ "API" := by
  refine ⟨by decide, rfl, by decide, by decide⟩

/-- C9 (amended): Get and GetByToken are total found/not-found lookups; a
token present in the token map resolves through the session map; when a
service token is configured and has no entry in the token map, GetByToken
with exactly that token resolves the service session; a token in neither
the token map nor matching a configured service token is not found. -/
theorem get_by_token_amended (m : SessionManagerCtx) (t : String) :
    (∀ id, mapLookup m.tokens t = some id → GetByToken m t = Get m id) ∧
    (mapLookup m.tokens t = none →
      (∀ api, m.apiSession = some api → api.token = t → GetByToken m t = some api) ∧
      (∀ api, m.apiSession = some api → api.token ≠ t → GetByToken m t = none) ∧
      (m.apiSession = none → GetByToken m t = none)) := by
  constructor
  · intro id h
    simp [GetByToken, h]
  · intro hnone
    refine ⟨?_, ?_, ?_⟩
    · intro api hapi htok
      simp [GetByToken, hnone, hapi, htok]
    · intro api hapi htok
      simp [GetByToken, hnone, hapi, htok]
    · intro hapi
      simp [GetByToken, hnone, hapi]

/-- Witness for the amended C9: on a fresh registry with service token svc,
GetByToken svc resolves the API session and an unknown token is not
found. -/
theorem get_by_token_amended_witness :
    GetByToken (New "svc") "svc" = some apiSessSvc ∧
    GetByToken (New "svc") "other" = none :=
  ⟨((get_by_token_amended (New "svc") "svc").2 (by decide)).1 apiSessSvc
     (by decide) (by decide),
   ((get_by_token_amended (New "svc") "other").2 (by decide)).2.1 apiSessSvc
     (by decide) (by decide)⟩

/-- The session record Create builds on success. -/
def newSession (id : String) (profile : MemberProfile) (token : String) :
    SessionCtx :=
  { id := id, token := token, profile := profile,
    isConnected := false, isWatching := false }

/-- C10: Create checks the freshly generated token only against the
registered token map, never against the configured service token: a Create
whose token equals the configured service token succeeds whenever the id
and token are fresh in the maps, and afterwards GetByToken with that token
returns the registered session (the token map is consulted first),
shadowing the service session whenever the ids differ. -/
theorem create_ignores_service_token (m : SessionManagerCtx) (api : SessionCtx)
    (id : String) (profile : MemberProfile)
    (_hapi : m.apiSession = some api)
    (hid : mapLookup m.sessions id = none)
    (htok : mapLookup m.tokens api.token = none) :
    (Create m id profile api.token).1 =
      .ok (newSession id profile api.token, api.token) ∧
    GetByToken (Create m id profile api.token).2.1 api.token =
      some (newSession id profile api.token) ∧
    (id ≠ api.id →
      GetByToken (Create m id profile api.token).2.1 api.token ≠ some api) := by
  have hstate : (Create m id profile api.token).2.1 =
      { m with tokens := mapInsert m.tokens api.token id,
               sessions := mapInsert m.sessions id (newSession id profile api.token) } := by
    simp [Create, hid, htok, newSession]
  have hget : GetByToken (Create m id profile api.token).2.1 api.token =
      some (newSession id profile api.token) := by
    rw [hstate]
    simp [GetByToken, mapLookup_insert_self, Get]
  refine ⟨by simp [Create, hid, htok, newSession], hget, ?_⟩
  intro hne hcontra
  rw [hget] at hcontra
  have : (newSession id profile api.token).id = api.id := by
    rw [Option.some_inj] at hcontra
    rw [hcontra]
  exact hne this

/-- Witness for C10: on a fresh registry with service token svc, creating
u1 with generated token svc succeeds and svc then resolves u1. -/
theorem create_ignores_service_token_witness :
    (Create (New "svc") "u1" profile0 apiSessSvc.token).1 =
      .ok (newSession "u1" profile0 apiSessSvc.token, apiSessSvc.token) ∧
    GetByToken (Create (New "svc") "u1" profile0 apiSessSvc.token).2.1
      apiSessSvc.token = some (newSession "u1" profile0 apiSessSvc.token) :=
  ⟨(create_ignores_service_token (New "svc") apiSessSvc "u1" profile0
      (by decide) (by decide) (by decide)).1,
   (create_ignores_service_token (New "svc") apiSessSvc "u1" profile0
      (by decide) (by decide) (by decide)).2.1⟩

end Neko
